import Mathlib

/-!
Shallow embedding of the SAILAR module toolchain (davnavr/Registir).

The embedding follows the Rust sources under `src/sailar` and `src/sailar_load`:
the code-block builder (`src/sailar/src/block.rs`), the module writer
(`src/sailar/src/module/writer.rs`), the module parser
(`src/sailar/src/module/parser.rs`), the module type (`src/sailar/src/module/mod.rs`),
and the semantic loader (`src/sailar_load/src/module.rs`, `symbol.rs`, `function.rs`).

Several support crates referenced by those files (`crate::type_system`,
`crate::identifier`, `crate::binary` core, `crate::instruction_set`,
`lazy_init`, and the record types used by `sailar_load`) are not part of the
source tree; the corresponding definitions below are modelled from the
specification and are marked `Modelled from the spec:` in their doc comments.
-/

deriving instance DecidableEq for Except

namespace Sailar

namespace type_system

/-- Modelled from the spec: the fixed-width integer types of `type_system::FixedInt`
(source file `type_system.rs` is absent from the tree; `block.rs` and the writer
reference it). -/
inductive FixedInt | u8 | u16 | u32 | u64 | s8 | s16 | s32 | s64
deriving DecidableEq

/-- Modelled from the spec: `type_system::Int`, either a fixed-width integer or a
native-width (pointer-sized) integer. -/
inductive IntType | fixed (i : FixedInt) | unative | snative
deriving DecidableEq

/-- Modelled from the spec: the floating-point types `F32` and `F64`. -/
inductive RealType | f32 | f64
deriving DecidableEq

/-- Modelled from the spec: `type_system::Primitive`. -/
inductive Primitive | int (i : IntType) | real (r : RealType)
deriving DecidableEq

/-- Modelled from the spec: `type_system::Any`, the sum type of value types.
Composite cases (pointer, struct, array) are reserved in the spec and do not
occur in the sources, so only the primitive case is present. -/
inductive Any | primitive (p : Primitive)
deriving DecidableEq

/-- The `type_system::Any` value corresponding to a fixed-width integer type,
as produced by the `From<FixedInt> for Any` conversion used throughout `block.rs`. -/
def FixedInt.any (i : FixedInt) : Any := .primitive (.int (.fixed i))

/-- Whether a type is an integer type, mirroring the pattern match
`Any::Primitive(Primitive::Int(_))` in `Builder::integer_arithmetic_instruction`. -/
def Any.isInt : Any → Bool
| .primitive (.int _) => true
| _ => false

/-- Modelled from the spec: the type-signature tag bytes
(U8=1, U16=2, U32=4, U64=8, S8=0x11, S16=0x12, S32=0x14, S64=0x18; the floats and
the native integers receive distinct otherwise-unconstrained tag bytes, which the
spec leaves open as long as writer and parser agree). -/
def Any.tag : Any → Nat
| .primitive (.int (.fixed .u8)) => 0x01
| .primitive (.int (.fixed .u16)) => 0x02
| .primitive (.int (.fixed .u32)) => 0x04
| .primitive (.int (.fixed .u64)) => 0x08
| .primitive (.int (.fixed .s8)) => 0x11
| .primitive (.int (.fixed .s16)) => 0x12
| .primitive (.int (.fixed .s32)) => 0x14
| .primitive (.int (.fixed .s64)) => 0x18
| .primitive (.int .unative) => 0x0A
| .primitive (.int .snative) => 0x1A
| .primitive (.real .f32) => 0x21
| .primitive (.real .f64) => 0x22

end type_system

namespace binary

/-- The length-size selector from `crate::binary` (`LengthSize` / `VarIntSize`):
one of the widths 1, 2 or 4 bytes used for every length and index integer of a
module. Modelled from the spec: the defining source file is absent from the tree. -/
inductive LengthSize | one | two | four
deriving DecidableEq

/-- Number of bytes of a length integer of this size. -/
def LengthSize.byte_count : LengthSize → Nat
| .one => 1
| .two => 2
| .four => 4

/-- The header tag byte of a length size (0 for 1 byte, 1 for 2 bytes, 2 for 4 bytes). -/
def LengthSize.tag : LengthSize → Nat
| .one => 0
| .two => 1
| .four => 2

/-- Decoding of the length-size tag byte; values other than 0, 1, 2 are invalid. -/
def LengthSize.fromTag (tag : Nat) : Option LengthSize :=
  if tag = 0 then some .one else if tag = 1 then some .two else if tag = 2 then some .four else none

/-- Rank used to compare length sizes. -/
def LengthSize.rank : LengthSize → Nat
| .one => 1
| .two => 2
| .four => 4

/-- The smallest length size whose width can represent `n`
(u8 max fits in One, u16 max fits in Two, everything else needs Four). -/
def LengthSize.pick (n : Nat) : LengthSize :=
  if n ≤ 0xFF then .one else if n ≤ 0xFFFF then .two else .four

/-- Modelled from the spec: `resize_to_fit` raises the size monotonically so that
`n` is representable. -/
def LengthSize.resize_to_fit (s : LengthSize) (n : Nat) : LengthSize :=
  if (LengthSize.pick n).rank ≤ s.rank then s else LengthSize.pick n

/-- Modelled from the spec: `resize_to_fit_many` folds `resize_to_fit` over a
collection of values. -/
def LengthSize.resize_to_fit_many (s : LengthSize) (values : List Nat) : LengthSize :=
  values.foldl LengthSize.resize_to_fit s

/-- The magic bytes ASCII "SAILAR" that begin every module. -/
def MAGIC : List Nat := [0x53, 0x41, 0x49, 0x4C, 0x41, 0x52]

/-- Little-endian byte encoding of `v` in `width` bytes, as produced by
`to_le_bytes` on the unsigned integer of that width. -/
def natLeBytes (width v : Nat) : List Nat :=
  (List.range width).map (fun i => v / 256 ^ i % 256)

/-- Little-endian decoding of a byte list, as `from_le_bytes`. -/
def leBytesToNat (bytes : List Nat) : Nat :=
  bytes.foldr (fun b acc => b + 256 * acc) 0

end binary

namespace identifier

/-- Modelled from the spec: the error cases of the identifier constructors,
`EmptyIdentifier` on zero length and `InvalidByte` on an interior NUL
(the defining `identifier.rs` is absent from the tree). -/
inductive InvalidError | empty | invalidByte
deriving DecidableEq

/-- Modelled from the spec: an identifier is a non-empty NUL-free byte string
(UTF-8 validity is additionally required by the source but no claim depends on
it, so the byte-level view is used). -/
structure Identifier where
  bytes : List Nat
deriving DecidableEq

/-- Length of an identifier in bytes. -/
def Identifier.len (i : Identifier) : Nat := i.bytes.length

/-- Modelled from the spec: `Identifier::from_byte_slice`, failing with `Empty`
on a zero-length input and `InvalidByte` on an interior NUL byte. -/
def from_byte_slice (bs : List Nat) : Except InvalidError Identifier :=
  if bs.isEmpty then .error .empty
  else if bs.contains 0 then .error .invalidByte
  else .ok ⟨bs⟩

end identifier

namespace instruction_set

/-- Modelled from the spec: the overflow-behavior operand carried by the
arithmetic instructions, one of Ignore, Saturate, Flag. -/
inductive OverflowBehavior | ignore | saturate | flag
deriving DecidableEq

/-- Byte encoding of an overflow behavior (a 1-byte operand; the concrete values
are modelled, the spec fixes only that it is a single byte). -/
def OverflowBehavior.toByte : OverflowBehavior → Nat
| .ignore => 0
| .saturate => 1
| .flag => 2

/-- Modelled from the spec: `instruction_set::ConstantInteger`, an integer
constant stored as little-endian bytes at its width. -/
inductive ConstantInteger
| i8 (byte : Nat)
| i16 (bytes : List Nat)
| i32 (bytes : List Nat)
| i64 (bytes : List Nat)
deriving DecidableEq

/-- Modelled from the spec: `instruction_set::Constant`. -/
inductive Constant | integer (c : ConstantInteger)
deriving DecidableEq

/-- Modelled from the spec: `instruction_set::Value`, either a flat register
index or an inline constant. -/
inductive Value
| indexedRegister (index : Nat)
| constant (c : Constant)
deriving DecidableEq

/-- Modelled from the spec: the operands of an integer arithmetic instruction. -/
structure IntegerArithmetic where
  overflow_behavior : OverflowBehavior
  x_value : Value
  y_value : Value
deriving DecidableEq

/-- Modelled from the spec: the instruction set (only the opcodes the sources
construct or write are carried; `call` is included because the opcode exists in
the instruction set even though the block builder never appends it). -/
inductive Instruction
| nop
| breakInstr
| ret (values : List Value)
| addI (op : IntegerArithmetic)
| subI (op : IntegerArithmetic)
| mulI (op : IntegerArithmetic)
| call (callee : Nat) (arguments : List Value)
deriving DecidableEq

/-- Whether an instruction is a Call instruction. -/
def Instruction.isCall : Instruction → Bool
| .call _ _ => true
| _ => false

/-- Modelled from the spec: single-byte opcodes (Nop, Ret, ..., Break = 0xFE;
the concrete values of the non-fixed opcodes are modelled). -/
def Instruction.opcode : Instruction → Nat
| .nop => 0
| .ret _ => 1
| .call _ _ => 5
| .addI _ => 6
| .subI _ => 7
| .mulI _ => 8
| .breakInstr => 0xFE

/-- Modelled from the spec: the flags byte of a value written before its payload
(`ValueFlags`). Registers carry no flags; constants carry a size marker and the
model never uses the embedded-integer flag. -/
def Value.flagsByte : Value → Nat
| .indexedRegister _ => 0
| .constant (.integer (.i8 _)) => 0x10
| .constant (.integer (.i16 _)) => 0x14
| .constant (.integer (.i32 _)) => 0x18
| .constant (.integer (.i64 _)) => 0x1C

end instruction_set

namespace function

/-- A SAILAR function signature, from `src/sailar/src/function.rs`:
a pair of result types and parameter types. -/
structure Signature where
  result_types : List type_system.Any
  parameter_types : List type_system.Any
deriving DecidableEq

/-- Modelled from the spec: `function::Instantiation`, the callable handle named
by callers (its defining code is absent from the tree; `block.rs` only calls
`callee.signature()` on it, so the model carries the signature directly). -/
structure Instantiation where
  signature : Signature
deriving DecidableEq

end function

namespace block

open type_system instruction_set binary

/-- The payload of `ValidationError::InvalidResultType`, from `block.rs`. -/
structure InvalidResultTypeError where
  index : Nat
  expected : type_system.Any
  actual : type_system.Any
deriving DecidableEq

/-- The kind payload of `ExpectedTypeError`, from `block.rs`. -/
inductive ExpectedTypeErrorKind
| expected (t : type_system.Any)
| expectedInteger
deriving DecidableEq

/-- The `ExpectedTypeError` of `block.rs`. -/
structure ExpectedTypeError where
  actual : type_system.Any
  kind : ExpectedTypeErrorKind
deriving DecidableEq

/-- The `ValidationError` enumeration of `block.rs`. -/
inductive ValidationError
| emptyBlock
| invalidResultType (e : InvalidResultTypeError)
| resultCountMismatch (expected : Nat) (actual : Nat)
| expectedType (e : ExpectedTypeError)
| argumentCountMismatch (expected : Nat) (actual : Nat)
| argumentTypeMismatch (expected : type_system.Any) (actual : type_system.Any) (index : Nat)
deriving DecidableEq

/-- The builder-level typed integer constants of `block.rs`
(`block::ConstantInteger`). Signed carriers are integers, unsigned are naturals;
the machine width is applied when converting to the wire form. -/
inductive ConstantInteger
| u8 (v : Nat)
| s8 (v : Int)
| u16 (v : Nat)
| s16 (v : Int)
| u32 (v : Nat)
| s32 (v : Int)
| u64 (v : Nat)
| s64 (v : Int)
deriving DecidableEq

/-- `ConstantInteger::value_type` from `block.rs`. -/
def ConstantInteger.value_type : ConstantInteger → type_system.Any
| .u8 _ => FixedInt.any .u8
| .s8 _ => FixedInt.any .s8
| .u16 _ => FixedInt.any .u16
| .s16 _ => FixedInt.any .s16
| .u32 _ => FixedInt.any .u32
| .s32 _ => FixedInt.any .s32
| .u64 _ => FixedInt.any .u64
| .s64 _ => FixedInt.any .s64

/-- Two's-complement representative of a signed value at the given bit width. -/
def intToNatBits (bits : Nat) (v : Int) : Nat := (v % ((2 : Int) ^ bits)).toNat

/-- The `From<&ConstantInteger> for instruction_set::ConstantInteger` conversion
of `block.rs`: one byte for the 8-bit constants (a signed byte is cast to
unsigned), little-endian byte arrays for the wider widths. -/
def ConstantInteger.toWire : ConstantInteger → instruction_set.ConstantInteger
| .u8 v => .i8 (v % 256)
| .s8 v => .i8 (intToNatBits 8 v)
| .u16 v => .i16 (natLeBytes 2 (v % 2 ^ 16))
| .s16 v => .i16 (natLeBytes 2 (intToNatBits 16 v))
| .u32 v => .i32 (natLeBytes 4 (v % 2 ^ 32))
| .s32 v => .i32 (natLeBytes 4 (intToNatBits 32 v))
| .u64 v => .i64 (natLeBytes 8 (v % 2 ^ 64))
| .s64 v => .i64 (natLeBytes 8 (intToNatBits 64 v))

/-- The builder-level constants of `block.rs` (`block::Constant`). -/
inductive Constant | integer (c : ConstantInteger)
deriving DecidableEq

/-- `Constant::value_type` from `block.rs`. -/
def Constant.value_type : Constant → type_system.Any
| .integer c => c.value_type

/-- Conversion of a builder constant to its wire form, from `block.rs`. -/
def Constant.toWire : Constant → instruction_set.Constant
| .integer c => .integer c.toWire

/-- An input register of `block.rs`: a value passed as input to the block. -/
structure Input where
  index : Nat
  value_type : type_system.Any
deriving DecidableEq

/-- A temporary register of `block.rs`: the result of executing an instruction. -/
structure Temporary where
  index : Nat
  value_type : type_system.Any
deriving DecidableEq

/-- The `block::Value` operand type: a constant, a temporary register or an
input register (register operands are handles carrying their declared type). -/
inductive Value
| constant (c : Constant)
| temporary (t : Temporary)
| input (i : Input)
deriving DecidableEq

/-- `Value::value_type` from `block.rs`. -/
def Value.value_type : Value → type_system.Any
| .constant c => c.value_type
| .temporary t => t.value_type
| .input i => i.value_type

/-- `Value::to_value` from `block.rs`: the flat register index is the input index
for inputs and `input_count + temporary_index` for temporaries. -/
def Value.to_value (v : Value) (input_count : Nat) : instruction_set.Value :=
  match v with
  | .constant c => .constant c.toWire
  | .temporary t => .indexedRegister (t.index + input_count)
  | .input i => .indexedRegister i.index

/-- The state of the code-block `Builder` of `block.rs` (the borrowed buffers of
the `BuilderCache` are carried inline). -/
structure Builder where
  integer_size : LengthSize
  result_types : List type_system.Any
  input_registers : List Input
  temporary_registers : List Temporary
  instructions : List Instruction
deriving DecidableEq

/-- `Builder::convert_value` from `block.rs`. -/
def Builder.convert_value (b : Builder) (v : Value) : instruction_set.Value :=
  v.to_value b.input_registers.length

/-- `Builder::define_temporary` from `block.rs`: appends a temporary whose index
is the current temporary count. -/
def Builder.define_temporary (b : Builder) (value_type : type_system.Any) : Temporary × Builder :=
  let temp : Temporary := ⟨b.temporary_registers.length, value_type⟩
  (temp, { b with temporary_registers := b.temporary_registers ++ [temp] })

/-- `Builder::define_overflow_flag` from `block.rs`: a `U8` temporary. -/
def Builder.define_overflow_flag (b : Builder) : Temporary × Builder :=
  b.define_temporary (FixedInt.any .u8)

/-- `Builder::emit_nop` from `block.rs`. -/
def Builder.emit_nop (b : Builder) : Builder :=
  { b with instructions := b.instructions ++ [.nop] }

/-- `Builder::emit_break` from `block.rs`. -/
def Builder.emit_break (b : Builder) : Builder :=
  { b with instructions := b.instructions ++ [.breakInstr] }

/-- `Builder::integer_arithmetic_instruction` from `block.rs`: fails with
`ExpectedInteger` when the first operand is not an integer, with
`Expected(x_type)` when the second operand has a different type; otherwise
appends the instruction and defines one temporary of the first operand's type. -/
def Builder.integer_arithmetic_instruction (b : Builder)
    (overflow_behavior : OverflowBehavior) (x y : Value)
    (instruction : IntegerArithmetic → Instruction) :
    Except ValidationError (Temporary × Builder) :=
  let x_type := x.value_type
  let y_type := y.value_type
  if x_type.isInt = false then
    .error (.expectedType ⟨x_type, .expectedInteger⟩)
  else if x_type ≠ y_type then
    .error (.expectedType ⟨y_type, .expected x_type⟩)
  else
    let b2 := { b with instructions :=
      b.instructions ++ [instruction ⟨overflow_behavior, b.convert_value x, b.convert_value y⟩] }
    .ok (b2.define_temporary x_type)

/-- The result pair of a flagged arithmetic operation, from `block.rs`. -/
structure FlaggedOverflow where
  result : Temporary
  flag : Temporary
deriving DecidableEq

/-- `Builder::integer_arithmetic_flagged` from `block.rs`: the shared arithmetic
emission followed by defining the overflow-flag temporary. -/
def Builder.integer_arithmetic_flagged (b : Builder)
    (overflow_behavior : OverflowBehavior) (x y : Value)
    (instruction : IntegerArithmetic → Instruction) :
    Except ValidationError (FlaggedOverflow × Builder) :=
  match b.integer_arithmetic_instruction overflow_behavior x y instruction with
  | .error e => .error e
  | .ok (result, b2) =>
    let p := b2.define_overflow_flag
    .ok (⟨result, p.1⟩, p.2)

/-- `Builder::emit_add` from `block.rs`. -/
def Builder.emit_add (b : Builder) (x y : Value) : Except ValidationError (Temporary × Builder) :=
  b.integer_arithmetic_instruction .ignore x y .addI

/-- `Builder::emit_add_flagged` from `block.rs`. -/
def Builder.emit_add_flagged (b : Builder) (x y : Value) :
    Except ValidationError (FlaggedOverflow × Builder) :=
  b.integer_arithmetic_flagged .flag x y .addI

/-- `Builder::emit_add_saturating` from `block.rs`. -/
def Builder.emit_add_saturating (b : Builder) (x y : Value) :
    Except ValidationError (Temporary × Builder) :=
  b.integer_arithmetic_instruction .saturate x y .addI

/-- Modelled from the spec: `emit_sub`, listed in the spec's operation table with
the same type rule as `emit_add`; `block.rs` defines only the shared
`integer_arithmetic_instruction` and the add wrappers, so the sub wrapper is the
shared emission applied to the `SubI` constructor. -/
def Builder.emit_sub (b : Builder) (x y : Value) : Except ValidationError (Temporary × Builder) :=
  b.integer_arithmetic_instruction .ignore x y .subI

/-- Modelled from the spec: `emit_mul`, as `emit_sub` but for `MulI`. -/
def Builder.emit_mul (b : Builder) (x y : Value) : Except ValidationError (Temporary × Builder) :=
  b.integer_arithmetic_instruction .ignore x y .mulI

/-- A finalized code block, from `block.rs`. -/
structure Block where
  integer_size : LengthSize
  input_types : List type_system.Any
  result_types : List type_system.Any
  temporary_types : List type_system.Any
  instructions : List Instruction
deriving DecidableEq

/-- `Builder::finish` from `block.rs`: rejects an empty instruction list, resizes
the integer size to fit the temporary count and freezes the block. -/
def Builder.finish (b : Builder) : Except ValidationError Block :=
  if b.instructions.isEmpty then .error .emptyBlock
  else
    .ok ⟨b.integer_size.resize_to_fit b.temporary_registers.length,
         b.input_registers.map Input.value_type,
         b.result_types,
         b.temporary_registers.map Temporary.value_type,
         b.instructions⟩

/-- The value-checking loop of `Builder::emit_ret`: the supplied values are
zipped with the expected result types (the iteration stops at the shorter of the
two sequences, exactly as `Iterator::zip` does); the first type mismatch aborts
with `InvalidResultType`, otherwise the converted values are collected. -/
def retLoop (input_count : Nat) :
    Nat → List Value → List type_system.Any →
    Except ValidationError (List instruction_set.Value)
| _, [], _ => .ok []
| _, _ :: _, [] => .ok []
| index, value :: values, expected :: rest =>
  let actual := value.value_type
  if actual ≠ expected then
    .error (.invalidResultType ⟨index, expected, actual⟩)
  else
    match retLoop input_count (index + 1) values rest with
    | .error e => .error e
    | .ok buf => .ok (value.to_value input_count :: buf)

/-- `Builder::emit_ret` from `block.rs`: checks the supplied values against the
result types (via the zip loop), then compares the collected buffer length with
the result count, resizes the integer size, pushes the `Ret` instruction and
finishes the block. -/
def Builder.emit_ret (b : Builder) (values : List Value) : Except ValidationError Block :=
  match retLoop b.input_registers.length 0 values b.result_types with
  | .error e => .error e
  | .ok buffer =>
    let return_value_count := buffer.length
    if return_value_count ≠ b.result_types.length then
      .error (.resultCountMismatch b.result_types.length buffer.length)
    else
      let b2 := { b with
        integer_size := b.integer_size.resize_to_fit return_value_count,
        instructions := b.instructions ++ [Instruction.ret buffer] }
      b2.finish

/-- The argument-checking loop of `Builder::emit_call`: the parameter types are
zipped with the supplied arguments (stopping at the shorter sequence, exactly as
`Iterator::zip` does); the first type mismatch aborts with
`ArgumentTypeMismatch`, otherwise the checked arguments are collected. -/
def callLoop :
    Nat → List type_system.Any → List Value →
    Except ValidationError (List Value)
| _, [], _ => .ok []
| _, _ :: _, [] => .ok []
| index, expected :: ps, argument :: args =>
  let actual := argument.value_type
  if actual ≠ expected then
    .error (.argumentTypeMismatch expected actual index)
  else
    match callLoop (index + 1) ps args with
    | .error e => .error e
    | .ok rest => .ok (argument :: rest)

/-- The result-definition loop of `Builder::emit_call`: one temporary is defined
per callee result type, in order, and appended to the result sink. -/
def emitCallResults : Builder → List type_system.Any → List Temporary × Builder
| b, [] => ([], b)
| b, t :: rest =>
  let p := b.define_temporary t
  let q := emitCallResults p.2 rest
  (p.1 :: q.1, q.2)

/-- `Builder::emit_call` from `block.rs`: validates the arguments against the
callee's parameter types, then (without appending any instruction) defines one
result temporary per callee result type. -/
def Builder.emit_call (b : Builder) (callee : function.Instantiation)
    (arguments : List Value) : Except ValidationError (List Temporary × Builder) :=
  let parameter_types := callee.signature.parameter_types
  match callLoop 0 parameter_types arguments with
  | .error e => .error e
  | .ok actual_arguments =>
    if actual_arguments.length ≠ parameter_types.length then
      .error (.argumentCountMismatch parameter_types.length actual_arguments.length)
    else
      .ok (emitCallResults b callee.signature.result_types)

/-- `BuilderCache::builder` from `block.rs`: a fresh builder over cleared
buffers, with inputs indexed in order and the integer size resized to fit the
input count and the result count. -/
def builder (result_types input_types : List type_system.Any) : Builder :=
  let input_registers := input_types.enum.map (fun p => Input.mk p.1 p.2)
  let integer_size :=
    (LengthSize.one.resize_to_fit input_registers.length).resize_to_fit result_types.length
  ⟨integer_size, result_types, input_registers, [], []⟩

end block

namespace module

/-- The format version of a module file, from `src/sailar/src/module/mod.rs`
(both components are single bytes on the wire). -/
structure FormatVersion where
  major : Nat
  minor : Nat
deriving DecidableEq

/-- `FormatVersion::MINIMUM_SUPPORTED` from `module/mod.rs`: major 0, minor 12. -/
def FormatVersion.minimum_supported : FormatVersion := ⟨0, 12⟩

/-- The `Export` marker of `module/mod.rs`. -/
inductive Export | yes | no
deriving DecidableEq

end module

namespace function

/-- `function::ForeignBody` from `src/sailar/src/function.rs`. -/
structure ForeignBody where
  library_name : identifier.Identifier
  entry_point_name : identifier.Identifier
deriving DecidableEq

/-- `function::Body` from `function.rs`: a defined entry block or a foreign
(library, entry point) pair. -/
inductive Body
| defined (entry : block.Block)
| foreign (f : ForeignBody)
deriving DecidableEq

/-- `Body::flags` from `function.rs`: the FOREIGN bit (bit 1). -/
def Body.flagsBits : Body → Nat
| .defined _ => 0
| .foreign _ => 2

/-- `function::Function` from `function.rs`: a symbol together with a shared
signature. -/
structure Function where
  symbol : identifier.Identifier
  signature : Signature
deriving DecidableEq

/-- `function::Definition` from `function.rs`: a body plus the export marker
(the source field is named `export`). -/
structure Definition where
  body : Body
  export_ : module.Export
deriving DecidableEq

/-- `Definition::flags` from `function.rs`: the body's flags with the EXPORT bit
(bit 0) added for exported definitions. -/
def Definition.flags (d : Definition) : Nat :=
  d.body.flagsBits + (if d.export_ = module.Export.yes then 1 else 0)

end function

namespace module

/-- `module::DefinedFunction` from `module/mod.rs`. -/
structure DefinedFunction where
  function : Sailar.function.Function
  definition : Sailar.function.Definition
deriving DecidableEq

/-- The SAILAR `Module` of `module/mod.rs` (the later, symbol-lookup aware
definition, which the spec designates as normative). The cached raw contents and
the derived symbol lookup are not separate state: the symbol set is determined
by `function_definitions`, over which the duplicate check below operates. -/
structure Module where
  format_version : FormatVersion
  length_size : binary.LengthSize
  name : identifier.Identifier
  version : List Nat
  function_definitions : List DefinedFunction
deriving DecidableEq

/-- `Module::new` (via `From<ModuleIdentifier>`) from `module/mod.rs`: the
minimum supported format version, and a length size resized to fit the name
length, the version count and every version number. -/
def Module.new (name : identifier.Identifier) (version : List Nat) : Sailar.module.Module :=
  ⟨FormatVersion.minimum_supported,
   ((binary.LengthSize.one.resize_to_fit name.len).resize_to_fit
      version.length).resize_to_fit_many version,
   name, version, []⟩

/-- `module::DuplicateSymbolError` from `module/mod.rs`, carrying the symbol of
the already-present definition. -/
structure DuplicateSymbolError where
  symbol : identifier.Identifier
deriving DecidableEq

/-- `Module::add_function` from `module/mod.rs` for a defined kind: rejects a
duplicate symbol, resizes the length size for foreign names, the symbol and the
signature arities, and appends the definition. -/
def Module.add_function (m : Sailar.module.Module) (symbol : identifier.Identifier)
    (signature : function.Signature) (definition : function.Definition) :
    Except DuplicateSymbolError (function.Function × Sailar.module.Module) :=
  let f : function.Function := ⟨symbol, signature⟩
  if (m.function_definitions.map (fun d => d.function.symbol)).contains symbol then
    .error ⟨symbol⟩
  else
    let ls0 := match definition.body with
      | .foreign foreign =>
        (m.length_size.resize_to_fit foreign.library_name.len).resize_to_fit
          foreign.entry_point_name.len
      | .defined _ => m.length_size
    let ls := ((ls0.resize_to_fit symbol.len).resize_to_fit
      signature.result_types.length).resize_to_fit signature.parameter_types.length
    .ok (f, { m with
      length_size := ls,
      function_definitions := m.function_definitions ++ [⟨f, definition⟩] })

end module

namespace writer

open binary

/-- The length writer of `module/writer.rs`: little-endian bytes at the selected
width; a length that does not fit the width hits the source's `unreachable!`
panic, modelled as `none`. -/
def write_length (size : LengthSize) (length : Nat) : Option (List Nat) :=
  if length < 256 ^ size.byte_count then some (natLeBytes size.byte_count length) else none

/-- `Wrapper::write_identifier` from `module/writer.rs`: length prefix then the
raw bytes. -/
def write_identifier (size : LengthSize) (i : identifier.Identifier) : Option (List Nat) :=
  (write_length size i.len).map (fun l => l ++ i.bytes)

/-- `Wrapper::write_buffer_and_count` from `module/writer.rs`: byte size, count
and contents when the count is positive, a single zero length otherwise. -/
def write_buffer_and_count (size : LengthSize) (count : Nat) (buffer : List Nat) :
    Option (List Nat) :=
  if 0 < count then
    match write_length size buffer.length, write_length size count with
    | some s, some c => some (s ++ c ++ buffer)
    | _, _ => none
  else write_length size 0

/-- Position of the first occurrence of a key in a list. -/
def findIndex {K : Type} [DecidableEq K] : List K → K → Option Nat
| [], _ => none
| k :: rest, key => if k = key then some 0 else (findIndex rest key).map (fun i => i + 1)

/-- The interning `lookup::IndexMap` of `module/writer.rs`. The underlying
`FxHashMap<K, usize>` maps each key to the value of `len()` at its insertion,
which equals the key's position in first-insertion order, so the map is carried
as that ordered key list. -/
structure IndexMap (K : Type) where
  keys : List K
deriving DecidableEq

/-- `IndexMap::get_or_insert` from `module/writer.rs`: an existing key keeps its
index, a new key is assigned the current length. -/
def IndexMap.get_or_insert {K : Type} [DecidableEq K] (m : IndexMap K) (key : K) :
    Nat × IndexMap K :=
  match findIndex m.keys key with
  | some i => (i, m)
  | none => (m.keys.length, ⟨m.keys ++ [key]⟩)

/-- `IndexMap::len` from `module/writer.rs`. -/
def IndexMap.len {K : Type} (m : IndexMap K) : Nat := m.keys.length

/-- The enumeration orders used when each interned section is emitted.
`IndexMap::into_keys` iterates the underlying `FxHashMap` in its hash-bucket
order, which the map leaves unspecified; the writer is therefore parameterized
by the enumeration each section receives, one function per key type. -/
structure EmissionOrder where
  ids : List identifier.Identifier → List identifier.Identifier
  blocks : List block.Block → List block.Block
  fsigs : List function.Signature → List function.Signature
  tsigs : List type_system.Any → List type_system.Any

/-- An emission order is lawful when each enumeration is a permutation of the
interned keys: this is the only guarantee `FxHashMap::into_keys` provides. -/
def EmissionOrder.Lawful (o : EmissionOrder) : Prop :=
  (∀ l, (o.ids l).Perm l) ∧ (∀ l, (o.blocks l).Perm l) ∧
  (∀ l, (o.fsigs l).Perm l) ∧ (∀ l, (o.tsigs l).Perm l)

/-- The insertion-order enumeration (every list enumerated as interned). -/
def EmissionOrder.insertion : EmissionOrder := ⟨id, id, id, id⟩

/-- The byte payload of a wire constant. -/
def constantBytes : instruction_set.ConstantInteger → List Nat
| .i8 b => [b]
| .i16 bs => bs
| .i32 bs => bs
| .i64 bs => bs

/-- The `write_value` helper of `module/writer.rs`: a flags byte, then the
length-encoded register index or the constant's bytes. -/
def writeValue (size : LengthSize) (v : instruction_set.Value) : Option (List Nat) :=
  match v with
  | .indexedRegister index => (write_length size index).map (fun ix => v.flagsByte :: ix)
  | .constant (.integer c) => some (v.flagsByte :: constantBytes c)

/-- Concatenated emission of a list of items, failing if any item fails. -/
def concatMapOption {α : Type} (f : α → Option (List Nat)) : List α → Option (List Nat)
| [] => some []
| a :: rest =>
  match f a, concatMapOption f rest with
  | some x, some xs => some (x ++ xs)
  | _, _ => none

/-- The per-instruction emission of `module/writer.rs`: opcode byte, then the
operands; instructions the writer does not support hit the source's `todo!`
panic, modelled as `none`. -/
def writeInstruction (size : LengthSize) (i : instruction_set.Instruction) : Option (List Nat) :=
  match i with
  | .nop => some [i.opcode]
  | .breakInstr => some [i.opcode]
  | .ret values =>
    match write_length size values.length, concatMapOption (writeValue size) values with
    | some l, some vs => some (i.opcode :: (l ++ vs))
    | _, _ => none
  | .addI op | .subI op | .mulI op =>
    match writeValue size op.x_value, writeValue size op.y_value with
    | some x, some y => some (i.opcode :: op.overflow_behavior.toByte :: (x ++ y))
    | _, _ => none
  | .call _ _ => none

/-- The three interning maps filled while the definitions are walked. -/
structure WriterLookups where
  identifier_lookup : IndexMap identifier.Identifier
  code_block_lookup : IndexMap block.Block
  function_signature_lookup : IndexMap function.Signature
deriving DecidableEq

/-- The empty lookups. -/
def WriterLookups.empty : WriterLookups := ⟨⟨[]⟩, ⟨[]⟩, ⟨[]⟩⟩

/-- The definitions walk of `write` in `module/writer.rs`: per definition a
flags byte, the interned function-signature index, the symbol, and the body
(an interned code-block index, or an interned library-name index followed by
the entry-point identifier). -/
def writeDefinitionsLoop (size : LengthSize) :
    List module.DefinedFunction → WriterLookups → Option (List Nat × WriterLookups)
| [], lk => some ([], lk)
| current :: rest, lk =>
  let flags := current.definition.flags
  let p := lk.function_signature_lookup.get_or_insert current.function.signature
  let lk1 : WriterLookups := { lk with function_signature_lookup := p.2 }
  match write_length size p.1, write_identifier size current.function.symbol with
  | some sigBytes, some symBytes =>
    let bodyResult : Option (List Nat × WriterLookups) :=
      match current.definition.body with
      | .defined defined =>
        let q := lk1.code_block_lookup.get_or_insert defined
        (write_length size q.1).map
          (fun bodyBytes => (bodyBytes, { lk1 with code_block_lookup := q.2 }))
      | .foreign foreign =>
        let q := lk1.identifier_lookup.get_or_insert foreign.library_name
        match write_length size q.1, write_identifier size foreign.entry_point_name with
        | some li, some ep => some (li ++ ep, { lk1 with identifier_lookup := q.2 })
        | _, _ => none
    match bodyResult with
    | none => none
    | some (bodyBytes, lk2) =>
      match writeDefinitionsLoop size rest lk2 with
      | none => none
      | some (restBytes, lk3) =>
        some (flags :: (sigBytes ++ symBytes ++ bodyBytes ++ restBytes), lk3)
  | _, _ => none

/-- Emission of a run of type-signature indices, interning each type into the
type-signature lookup, from `module/writer.rs`. -/
def writeTypeIndicesLoop (size : LengthSize) :
    List type_system.Any → IndexMap type_system.Any →
    Option (List Nat × IndexMap type_system.Any)
| [], ts => some ([], ts)
| t :: rest, ts =>
  let p := ts.get_or_insert t
  match write_length size p.1 with
  | none => none
  | some ix =>
    match writeTypeIndicesLoop size rest p.2 with
    | none => none
    | some (restBytes, ts2) => some (ix ++ restBytes, ts2)

/-- The function-signature section body of `module/writer.rs`: per signature the
result count, the parameter count, then the interned type indices of the results
followed by the parameters. -/
def writeFunctionSignaturesLoop (size : LengthSize) :
    List function.Signature → IndexMap type_system.Any →
    Option (List Nat × IndexMap type_system.Any)
| [], ts => some ([], ts)
| current :: rest, ts =>
  match write_length size current.result_types.length,
        write_length size current.parameter_types.length with
  | some rt, some pt =>
    match writeTypeIndicesLoop size (current.result_types ++ current.parameter_types) ts with
    | none => none
    | some (tyBytes, ts2) =>
      match writeFunctionSignaturesLoop size rest ts2 with
      | none => none
      | some (restBytes, ts3) => some (rt ++ pt ++ tyBytes ++ restBytes, ts3)
  | _, _ => none

/-- The code-block section body of `module/writer.rs`: per block the input,
result and temporary counts, the interned type index of every register, and the
length-prefixed instruction buffer. -/
def writeCodeBlocksLoop (size : LengthSize) :
    List block.Block → IndexMap type_system.Any →
    Option (List Nat × IndexMap type_system.Any)
| [], ts => some ([], ts)
| current :: rest, ts =>
  match write_length size current.input_types.length,
        write_length size current.result_types.length,
        write_length size current.temporary_types.length with
  | some ic, some rc, some tc =>
    match writeTypeIndicesLoop size
        (current.input_types ++ current.result_types ++ current.temporary_types) ts with
    | none => none
    | some (regBytes, ts2) =>
      match concatMapOption (writeInstruction size) current.instructions with
      | none => none
      | some instrBytes =>
        match write_buffer_and_count size current.instructions.length instrBytes with
        | none => none
        | some instrSection =>
          match writeCodeBlocksLoop size rest ts2 with
          | none => none
          | some (restBytes, ts3) =>
            some (ic ++ rc ++ tc ++ regBytes ++ instrSection ++ restBytes, ts3)
  | _, _, _ => none

/-- The module writer `write` of `module/writer.rs`: magic, version and
length-size bytes; the length-prefixed header (name, then the version vector
written as a byte length followed by the numbers); then the sections — the
identifiers, type signatures, function signatures, data placeholder, code
blocks, imports placeholder, the definitions buffer (count, definitions, and
four placeholder lengths), and the remaining placeholder lengths. The interned
sections are emitted in the enumeration order `order` provides for
`IndexMap::into_keys`. -/
def write (order : EmissionOrder) (m : Sailar.module.Module) : Option (List Nat) :=
  let length_size := m.length_size
  match write_identifier length_size m.name,
        write_length length_size (m.version.length * length_size.byte_count),
        concatMapOption (write_length length_size) m.version with
  | some nameBytes, some versionLengthBytes, some versionBytes =>
    let header := nameBytes ++ versionLengthBytes ++ versionBytes
    match write_length length_size header.length,
          writeDefinitionsLoop length_size m.function_definitions WriterLookups.empty,
          write_length length_size m.function_definitions.length,
          write_length length_size 0 with
    | some headerSize, some (functions_buffer, lookups), some defCount, some zero =>
      let definitions_buffer :=
        defCount ++ functions_buffer ++ zero ++ zero ++ zero ++ zero
      let function_signature_count := lookups.function_signature_lookup.len
      match writeFunctionSignaturesLoop length_size
          (order.fsigs lookups.function_signature_lookup.keys) ⟨[]⟩ with
      | none => none
      | some (function_signature_buffer, ts1) =>
        let code_block_count := lookups.code_block_lookup.len
        match writeCodeBlocksLoop length_size
            (order.blocks lookups.code_block_lookup.keys) ts1 with
        | none => none
        | some (code_block_buffer, ts2) =>
          match concatMapOption (write_identifier length_size)
                  (order.ids lookups.identifier_lookup.keys),
                write_buffer_and_count length_size ts2.len
                  ((order.tsigs ts2.keys).map type_system.Any.tag) with
          | some idsBuffer, some tsSection =>
            match write_buffer_and_count length_size lookups.identifier_lookup.len idsBuffer,
                  write_buffer_and_count length_size function_signature_count
                    function_signature_buffer,
                  write_buffer_and_count length_size code_block_count code_block_buffer with
            | some idsSection, some fsigSection, some cbSection =>
              some (binary.MAGIC
                ++ [m.format_version.major, m.format_version.minor, length_size.tag]
                ++ headerSize ++ header
                ++ idsSection ++ tsSection ++ fsigSection ++ zero ++ cbSection ++ zero
                ++ definitions_buffer ++ zero ++ zero ++ zero ++ zero)
            | _, _, _ => none
          | _, _ => none
    | _, _, _, _ => none
  | _, _, _ => none

end writer

namespace parser

open binary

/-- The `ErrorKind` enumeration of `module/parser.rs`. `ioEndOfStream` stands
for the `IO` case produced when `read_exact` hits the end of a byte slice; note
that no case concerns the format version. -/
inductive ErrorKind
| invalidMagic (actual : List Nat)
| missingFormatVersion
| missingLengthSize
| invalidLengthSize (tag : Nat)
| lengthTooLarge (value : Nat)
| missingHeaderSize
| missingHeaderFieldCount
| missingModuleHeader
| invalidIdentifier (e : identifier.InvalidError)
| missingModuleVersionLength
| missingModuleVersionNumber (index : Nat)
| missingIdentifierSize
| missingIdentifierCount
| missingTypeSignatureSize
| missingTypeSignatureCount
| missingTypeSignature (index : Nat)
| invalidTypeSignatureTag (tag : Nat)
| ioEndOfStream
deriving DecidableEq

/-- A parser error: a byte offset into the module and an error kind, from
`module/parser.rs`. -/
structure Error where
  offset : Nat
  kind : ErrorKind
deriving DecidableEq

/-- The reader state of `input::Wrapper` in `module/parser.rs`: the remaining
source bytes, the running byte offset and the current length size (the
length-parser function pointer is determined by the length size). -/
structure Wrapper where
  source : List Nat
  offset : Nat
  length_size : LengthSize
deriving DecidableEq

/-- `Wrapper::error` from `module/parser.rs`: an error at the current offset. -/
def Wrapper.mkError (w : Wrapper) (kind : ErrorKind) : Error := ⟨w.offset, kind⟩

/-- `Wrapper::read` (and `fill`) from `module/parser.rs`: reading from a byte
slice returns up to `n` bytes and advances the offset by the count actually
read. -/
def Wrapper.read (w : Wrapper) (n : Nat) : List Nat × Wrapper :=
  (w.source.take n,
   ⟨w.source.drop n, w.offset + (w.source.take n).length, w.length_size⟩)

/-- `Wrapper::read_exact` from `module/parser.rs`: exactly `n` bytes or the IO
end-of-stream error at the current offset. -/
def Wrapper.read_exact (w : Wrapper) (n : Nat) : Except Error (List Nat × Wrapper) :=
  if w.source.length < n then .error (w.mkError .ioEndOfStream)
  else .ok (w.source.take n, ⟨w.source.drop n, w.offset + n, w.length_size⟩)

/-- The width-dispatched length readers `read_length_one`, `read_length_two`,
`read_length_four` of `module/parser.rs`: `none` when fewer than the full width
of bytes could be read (the offset still advances by the count read). On a
64-bit host a `u32` length always fits `usize`, so the `LengthTooLarge` path of
the four-byte reader cannot trigger. -/
def Wrapper.read_length_option (w : Wrapper) : Option Nat × Wrapper :=
  let n := w.length_size.byte_count
  let p := w.read n
  if p.1.length = n then (some (leBytesToNat p.1), p.2) else (none, p.2)

/-- `Wrapper::read_length` from `module/parser.rs`: the missing-value error is
raised at the post-read offset. -/
def Wrapper.read_length (w : Wrapper) (missing : ErrorKind) : Except Error (Nat × Wrapper) :=
  match w.read_length_option with
  | (some length, w2) => .ok (length, w2)
  | (none, w2) => .error (w2.mkError missing)

/-- `Wrapper::read_size_and_count` from `module/parser.rs`: a zero size skips
the count read and yields a zero count. -/
def Wrapper.read_size_and_count (w : Wrapper) (missing_size missing_count : ErrorKind) :
    Except Error ((Nat × Nat) × Wrapper) :=
  match w.read_length missing_size with
  | .error e => .error e
  | .ok (size, w1) =>
    if size = 0 then .ok ((size, 0), w1)
    else
      match w1.read_length missing_count with
      | .error e => .error e
      | .ok (count, w2) => .ok ((size, count), w2)

/-- `Wrapper::read_identifier` from `module/parser.rs`. The source reads the
length, allocates `Vec::with_capacity(length)` — a vector of length zero — and
calls `read_exact` on its zero-length slice, so no identifier bytes are consumed
and the empty byte string is handed to `Identifier::from_byte_slice`. -/
def Wrapper.read_identifier (w : Wrapper) :
    Except Error (identifier.Identifier × Wrapper) :=
  match w.read_length (.invalidIdentifier .empty) with
  | .error e => .error e
  | .ok (_capacity, w1) =>
    match w1.read_exact 0 with
    | .error e => .error e
    | .ok (buffer, w2) =>
      match identifier.from_byte_slice buffer with
      | .ok i => .ok (i, w2)
      | .error e => .error (w2.mkError (.invalidIdentifier e))

/-- `Wrapper::parse_buffer` from `module/parser.rs`: reads `length` bytes into a
rented buffer and runs the inner parser on a wrapper over those bytes whose
offset starts at the buffer's position in the stream. -/
def Wrapper.parse_buffer {α : Type} (w : Wrapper) (length : Nat)
    (p : Wrapper → Except Error α) : Except Error (α × Wrapper) :=
  let start_offset := w.offset
  match w.read_exact length with
  | .error e => .error e
  | .ok (bytes, w2) =>
    match p ⟨bytes, start_offset, w.length_size⟩ with
    | .error e => .error e
    | .ok a => .ok (a, w2)

/-- `Wrapper::read_many_to_vec` from `module/parser.rs`: runs the indexed parser
`count` times, collecting the results. -/
def Wrapper.read_many_to_vec {α : Type} :
    Wrapper → Nat → Nat → (Wrapper → Nat → Except Error (α × Wrapper)) →
    Except Error (List α × Wrapper)
| w, 0, _, _ => .ok ([], w)
| w, n + 1, index, p =>
  match p w index with
  | .error e => .error e
  | .ok (a, w1) =>
    match Wrapper.read_many_to_vec w1 n (index + 1) p with
    | .error e => .error e
    | .ok (rest, w2) => .ok (a :: rest, w2)

/-- The module header parsed by `parse`, from `module/parser.rs`. -/
structure Header where
  name : identifier.Identifier
  version : List Nat
deriving DecidableEq

/-- The header closure of `parse`: the module name, then the version-number
count, then that many version numbers. -/
def parseHeader (src : Wrapper) : Except Error Header :=
  match src.read_identifier with
  | .error e => .error e
  | .ok (name, s1) =>
    match s1.read_length .missingModuleVersionLength with
    | .error e => .error e
    | .ok (length, s2) =>
      match s2.read_many_to_vec length 0
          (fun s index => s.read_length (.missingModuleVersionNumber index)) with
      | .error e => .error e
      | .ok (numbers, _) => .ok ⟨name, numbers⟩

/-- The identifiers-section closure of `parse`: `count` identifiers. -/
def parseIdentifiers (count : Nat) (src : Wrapper) :
    Except Error (List identifier.Identifier) :=
  match src.read_many_to_vec count 0 (fun s _ => s.read_identifier) with
  | .error e => .error e
  | .ok (identifiers, _) => .ok identifiers

/-- The `TypeCode` decoding of the type-signature section of
`module/parser.rs`: the tag byte is mapped back to a primitive type, any other
byte is an invalid type-signature tag. -/
def decodeTypeCode (tag : Nat) : Option type_system.Any :=
  if tag = 0x01 then some (type_system.FixedInt.any .u8)
  else if tag = 0x02 then some (type_system.FixedInt.any .u16)
  else if tag = 0x04 then some (type_system.FixedInt.any .u32)
  else if tag = 0x08 then some (type_system.FixedInt.any .u64)
  else if tag = 0x11 then some (type_system.FixedInt.any .s8)
  else if tag = 0x12 then some (type_system.FixedInt.any .s16)
  else if tag = 0x14 then some (type_system.FixedInt.any .s32)
  else if tag = 0x18 then some (type_system.FixedInt.any .s64)
  else if tag = 0x21 then some (.primitive (.real .f32))
  else if tag = 0x22 then some (.primitive (.real .f64))
  else none

/-- The type-signatures-section closure of `parse`: `count` tag bytes, each
decoded to a type; a missing byte is `MissingTypeSignature` at that index. -/
def parseTypeSignatures (count : Nat) (src : Wrapper) :
    Except Error (List type_system.Any) :=
  match src.read_many_to_vec count 0 (fun s index =>
      let p := s.read 1
      match p.1 with
      | [] => .error (p.2.mkError (.missingTypeSignature index))
      | tag :: _ =>
        match decodeTypeCode tag with
        | some t => .ok (t, p.2)
        | none => .error (p.2.mkError (.invalidTypeSignatureTag tag))) with
  | .error e => .error e
  | .ok (signatures, _) => .ok signatures

/-- The module parser `parse` of `module/parser.rs`: magic, the three
information bytes (major, minor, length-size tag — the version bytes are stored
without any comparison against `FormatVersion::MINIMUM_SUPPORTED`), the
length-prefixed header, the identifiers section and the type-signatures section;
the parsed module carries empty symbol and definition lists exactly as the
source constructs it. -/
def parse (source : List Nat) : Except Error Sailar.module.Module :=
  let w0 : Wrapper := ⟨source, 0, .one⟩
  let pMagic := w0.read binary.MAGIC.length
  if pMagic.1 ≠ binary.MAGIC then .error (pMagic.2.mkError (.invalidMagic pMagic.1))
  else
    let pInfo := pMagic.2.read 3
    let info := pInfo.1
    let w1 := pInfo.2
    match info[0]?, info[1]? with
    | some major, some minor =>
      match info[2]? with
      | none => .error (w1.mkError .missingLengthSize)
      | some tagByte =>
        match LengthSize.fromTag tagByte with
        | none => .error (w1.mkError (.invalidLengthSize tagByte))
        | some length_size =>
          let w2 : Wrapper := ⟨w1.source, w1.offset, length_size⟩
          match w2.read_length .missingHeaderSize with
          | .error e => .error e
          | .ok (header_size, w3) =>
            if header_size = 0 then .error (w3.mkError .missingModuleHeader)
            else
              match w3.parse_buffer header_size parseHeader with
              | .error e => .error e
              | .ok (header, w4) =>
                match w4.read_size_and_count .missingIdentifierSize .missingIdentifierCount with
                | .error e => .error e
                | .ok ((id_size, id_count), w5) =>
                  match w5.parse_buffer id_size (parseIdentifiers id_count) with
                  | .error e => .error e
                  | .ok (_identifiers, w6) =>
                    match w6.read_size_and_count .missingTypeSignatureSize
                        .missingTypeSignatureCount with
                    | .error e => .error e
                    | .ok ((ts_size, ts_count), w7) =>
                      match w7.parse_buffer ts_size (parseTypeSignatures ts_count) with
                      | .error e => .error e
                      | .ok (_type_signatures, w8) =>
                        .ok ⟨⟨major, minor⟩, w8.length_size, header.name,
                             header.version, []⟩
    | _, _ => .error (w1.mkError .missingFormatVersion)

end parser

namespace sailar_load

/-- Modelled from the spec: the record-level export classification used by the
loader (`sailar::record::Export`, not under src): Private and Export carry the
symbol name, Hidden definitions have none. -/
inductive Export
| asPrivate (symbol : identifier.Identifier)
| asExport (symbol : identifier.Identifier)
| asHidden
deriving DecidableEq

/-- The symbol name of an export, when it has one. -/
def Export.symbol : Export → Option identifier.Identifier
| .asPrivate s => some s
| .asExport s => some s
| .asHidden => none

/-- Modelled from the spec: the body of a `sailar::record::FunctionDefinition`
record — a code-block index, or a foreign (library identifier index, entry
point) pair. -/
inductive FunctionBody
| definition (code : Nat)
| foreign (library : Nat) (entry : identifier.Identifier)
deriving DecidableEq

/-- Modelled from the spec: the `sailar::record::FunctionDefinition` record
consumed by the loader (export classification, function-signature index, body). -/
structure FunctionDefinitionRecord where
  export_ : Export
  signature : Nat
  body : FunctionBody
deriving DecidableEq

/-- Modelled from the spec: the `sailar::record::FunctionInstantiation` record:
the index of the template the instantiation points at. -/
structure FunctionInstantiationRecord where
  template : Nat
deriving DecidableEq

/-- Modelled from the spec: the `ModuleIdentifier` metadata record. -/
structure ModuleIdentifierRecord where
  name : identifier.Identifier
  version : List Nat
deriving DecidableEq

/-- Modelled from the spec: the metadata-field record. -/
inductive MetadataField
| moduleIdentifier (m : ModuleIdentifierRecord)
deriving DecidableEq

/-- Modelled from the spec: the records a loader source yields (the cases
`Module::from_source` handles). -/
inductive Record
| metadataField (f : MetadataField)
| identifierRecord (i : identifier.Identifier)
| functionDefinition (d : FunctionDefinitionRecord)
deriving DecidableEq

/-- The loader errors captured in lazy cells, from the spec's loader error
taxonomy: an index outside its table, or a weak module back-reference whose
module was dropped. -/
inductive LoaderError
| indexOutOfBounds (index : Nat)
| moduleDropped
deriving DecidableEq

/-- The one-shot memoizing cell (`lazy_init::Lazy<Result<T, LoaderError>>`) that
every lazy cross-reference uses: unresolved, or resolved to a result that is
returned (errors cloned) on every subsequent access. -/
structure LazyCell (α : Type) where
  state : Option (Except LoaderError α)
deriving DecidableEq

/-- The unresolved cell, the `Default` initial state. -/
def LazyCell.unresolved {α : Type} : LazyCell α := ⟨none⟩

/-- `Lazy::get_or_create` followed by `as_ref().map_err(Clone::clone)`: a
resolved cell returns its memoized result unchanged; an unresolved cell runs the
resolver exactly once and memoizes the outcome. The boolean reports whether the
resolver ran. -/
def LazyCell.get_or_create {α : Type} (cell : LazyCell α)
    (resolve : Unit → Except LoaderError α) :
    Except LoaderError α × LazyCell α × Bool :=
  match cell.state with
  | some r => (r, cell, false)
  | none =>
    let r := resolve ()
    (r, ⟨some r⟩, true)

/-- A loaded code block handle (`crate::code_block::Code`, not under src;
modelled from the spec as the record-level block content). -/
structure Code where
  register_types : List Nat
  input_count : Nat
  result_count : Nat
deriving DecidableEq

/-- `function::Body` of `sailar_load/src/function.rs`: a defined body resolves
to a loaded code block. -/
inductive Body
| defined (code : Code)
deriving DecidableEq

/-- A loaded function-signature handle (the part of
`sailar_load::function::Signature` a resolved cross-reference hands out). -/
structure SignatureHandle where
  return_type_count : Nat
  types : List Nat
deriving DecidableEq

/-- A loaded function definition from `sailar_load/src/function.rs`: the record
plus the lazy body and signature cells (both unresolved at construction). -/
structure Definition where
  definition : FunctionDefinitionRecord
  body_cell : LazyCell Body
  signature_cell : LazyCell SignatureHandle
deriving DecidableEq

/-- `Definition::new` from `sailar_load/src/function.rs`: both cells default to
unresolved. -/
def Definition.new (record : FunctionDefinitionRecord) : Definition :=
  ⟨record, .unresolved, .unresolved⟩

/-- `function::Template` from `sailar_load/src/function.rs`: currently only a
definition. -/
inductive Template
| definitionT (d : Definition)
deriving DecidableEq

/-- A loaded function instantiation from `sailar_load/src/function.rs`: the
record plus the lazy template cell. -/
structure Instantiation where
  instantiation : FunctionInstantiationRecord
  template_cell : LazyCell Template
deriving DecidableEq

/-- `Instantiation::new` from `sailar_load/src/function.rs`. -/
def Instantiation.new (record : FunctionInstantiationRecord) : Instantiation :=
  ⟨record, .unresolved⟩

/-- The tables of the owning module that lazy resolvers consult, together with
whether the weak back-reference to the module can still be upgraded. Modelled
from the spec (the `Module` accessors `get_code_block`,
`get_function_signature`, `get_function_template` are not under src). -/
structure ModuleEnv where
  alive : Bool
  code_blocks : List Code
  function_signatures : List SignatureHandle
  function_templates : List Template
deriving DecidableEq

/-- `Module::upgrade_weak`: upgrading the weak module reference fails with a
loader error when the module was dropped. -/
def ModuleEnv.upgrade (env : ModuleEnv) : Except LoaderError Unit :=
  if env.alive then .ok () else .error .moduleDropped

/-- `Module::get_code_block`: the code block at the index, or an
index-out-of-bounds loader error. -/
def ModuleEnv.get_code_block (env : ModuleEnv) (index : Nat) : Except LoaderError Code :=
  match env.code_blocks[index]? with
  | some c => .ok c
  | none => .error (.indexOutOfBounds index)

/-- `Module::get_function_signature`. -/
def ModuleEnv.get_function_signature (env : ModuleEnv) (index : Nat) :
    Except LoaderError SignatureHandle :=
  match env.function_signatures[index]? with
  | some s => .ok s
  | none => .error (.indexOutOfBounds index)

/-- `Module::get_function_template`. -/
def ModuleEnv.get_function_template (env : ModuleEnv) (index : Nat) :
    Except LoaderError Template :=
  match env.function_templates[index]? with
  | some t => .ok t
  | none => .error (.indexOutOfBounds index)

/-- The resolver of `Definition::body` from `sailar_load/src/function.rs`:
upgrade the module and look up the body's code block; a foreign body hits the
source's `todo!` panic, modelled as `none`. -/
def Definition.body_resolver (d : Definition) (env : ModuleEnv) :
    Option (Except LoaderError Body) :=
  match d.definition.body with
  | .definition code =>
    some (match env.upgrade with
      | .error e => .error e
      | .ok _ =>
        match env.get_code_block code with
        | .error e => .error e
        | .ok c => .ok (.defined c))
  | .foreign _ _ => none

/-- `Definition::body` from `sailar_load/src/function.rs`: the lazy body cell,
resolved on first access and memoized (`none` models the foreign-body `todo!`
panic, which leaves the cell unset). -/
def Definition.body (d : Definition) (env : ModuleEnv) :
    Option (Except LoaderError Body × Definition × Bool) :=
  match d.body_cell.state with
  | some r => some (r, d, false)
  | none =>
    match d.body_resolver env with
    | none => none
    | some r => some (r, { d with body_cell := ⟨some r⟩ }, true)

/-- `Definition::signature` from `sailar_load/src/function.rs`: the lazy
signature cell, resolving the record's signature index against the module. -/
def Definition.signature (d : Definition) (env : ModuleEnv) :
    Except LoaderError SignatureHandle × Definition × Bool :=
  let p := d.signature_cell.get_or_create (fun _ =>
    match env.upgrade with
    | .error e => .error e
    | .ok _ => env.get_function_signature d.definition.signature)
  (p.1, { d with signature_cell := p.2.1 }, p.2.2)

/-- `Instantiation::template` from `sailar_load/src/function.rs`: the lazy
template cell, resolving the record's template index against the module. -/
def Instantiation.template (inst : Instantiation) (env : ModuleEnv) :
    Except LoaderError Template × Instantiation × Bool :=
  let p := inst.template_cell.get_or_create (fun _ =>
    match env.upgrade with
    | .error e => .error e
    | .ok _ => env.get_function_template inst.instantiation.template)
  (p.1, { inst with template_cell := p.2.1 }, p.2.2)

/-- `function::Symbol` (via the `symbol_wrapper!` macro) wrapped into
`symbol::Symbol`, from `sailar_load/src/symbol.rs`: a reference to a definition
whose export is Private or Export. -/
structure Symbol where
  definition : Definition
deriving DecidableEq

/-- `Symbol::new` from the `symbol_wrapper!` macro in `sailar_load/src/symbol.rs`:
hidden definitions yield no symbol. -/
def Symbol.new (d : Definition) : Option Symbol :=
  match d.definition.export_ with
  | .asPrivate _ => some ⟨d⟩
  | .asExport _ => some ⟨d⟩
  | .asHidden => none

/-- `Symbol::name` from `sailar_load/src/symbol.rs` (the source unwraps; a
symbol constructed by `Symbol::new` always has a name, and the fallback value is
never reached for such symbols). -/
def Symbol.name (s : Symbol) : identifier.Identifier :=
  match s.definition.definition.export_.symbol with
  | some n => n
  | none => ⟨[]⟩

/-- `Definition::to_symbol` from `sailar_load/src/function.rs`. -/
def Definition.to_symbol (d : Definition) : Option Symbol := Symbol.new d

/-- `symbol::DuplicateSymbolError` from `sailar_load/src/symbol.rs`, carrying
the already-present symbol. -/
structure DuplicateSymbolError where
  symbol : Symbol
deriving DecidableEq

/-- `symbol::Lookup` from `sailar_load/src/symbol.rs`: a hash set of symbols.
Symbols of one module hash and compare by name, so the set is carried as the
list of entries in insertion order, keyed by name. -/
structure Lookup where
  entries : List Symbol
deriving DecidableEq

/-- `Lookup::get` by name, from `sailar_load/src/symbol.rs`. -/
def Lookup.get (l : Lookup) (name : identifier.Identifier) : Option Symbol :=
  l.entries.find? (fun s => s.name = name)

/-- `Lookup::try_insert` from `sailar_load/src/symbol.rs`: an occupied entry
yields `DuplicateSymbolError` carrying the existing symbol and leaves the set
unchanged; a vacant entry is inserted. -/
def Lookup.try_insert (l : Lookup) (s : Symbol) : Except DuplicateSymbolError Lookup :=
  match l.get s.name with
  | some existing => .error ⟨existing⟩
  | none => .ok ⟨l.entries ++ [s]⟩

/-- `SymbolLookup::try_insert` from `sailar_load/src/module.rs`: the
`Option`-accepting wrapper — no symbol (a hidden definition) is accepted
without touching the set. -/
def Lookup.try_insert_opt (l : Lookup) (s : Option Symbol) :
    Except DuplicateSymbolError Lookup :=
  match s with
  | none => .ok l
  | some s => l.try_insert s

/-- The state `Module::from_source` builds up, from `sailar_load/src/module.rs`. -/
structure LoadedModule where
  identifiers : List identifier.Identifier
  module_identifier : Option ModuleIdentifierRecord
  symbols : Lookup
  function_definitions : List Definition
deriving DecidableEq

/-- The initial loaded-module state of `Module::from_source`. -/
def LoadedModule.empty : LoadedModule := ⟨[], none, ⟨[]⟩, []⟩

/-- The outcome of `Module::from_source`: the built module, or a Rust panic with
its message. -/
inductive LoadOutcome
| ok (m : LoadedModule)
| panicked (message : String)
deriving DecidableEq

/-- The record loop of `Module::from_source` in `sailar_load/src/module.rs`:
a metadata identifier is stored, identifier records are collected, and each
function definition is wrapped and its symbol inserted —
`try_insert(..).expect("TODO: handle duplicate symbol error")`, so a duplicate
symbol panics with that message instead of surfacing the error. -/
def from_source_loop : List Record → LoadedModule → LoadOutcome
| [], m => .ok m
| record :: rest, m =>
  match record with
  | .metadataField (.moduleIdentifier identifier) =>
    from_source_loop rest { m with module_identifier := some identifier }
  | .identifierRecord identifier =>
    from_source_loop rest { m with identifiers := m.identifiers ++ [identifier] }
  | .functionDefinition definition =>
    let f := Definition.new definition
    match m.symbols.try_insert_opt f.to_symbol with
    | .error _ => .panicked "TODO: handle duplicate symbol error"
    | .ok symbols =>
      from_source_loop rest { m with
        symbols := symbols,
        function_definitions := m.function_definitions ++ [f] }

/-- `Module::from_source` from `sailar_load/src/module.rs`, over a pure record
source. -/
def from_source (records : List Record) : LoadOutcome :=
  from_source_loop records LoadedModule.empty

end sailar_load

namespace block

/-- Specification-side description of the `emit_ret` value check: the position,
expected type and actual type of the first supplied value whose type differs
from the result type at the same position, comparing only the prefix both
sequences cover. -/
def firstResultMismatch :
    Nat → List Value → List type_system.Any →
    Option (Nat × type_system.Any × type_system.Any)
| _, [], _ => none
| _, _ :: _, [] => none
| index, value :: values, expected :: rest =>
  if value.value_type ≠ expected then some (index, expected, value.value_type)
  else firstResultMismatch (index + 1) values rest

/-- Specification-side description of the `emit_call` argument check: the
position, expected type and actual type of the first argument whose type
differs from the parameter type at the same position, comparing only the prefix
both sequences cover. -/
def firstArgumentMismatch :
    Nat → List type_system.Any → List Value →
    Option (Nat × type_system.Any × type_system.Any)
| _, [], _ => none
| _, _ :: _, [] => none
| index, expected :: ps, argument :: args =>
  if argument.value_type ≠ expected then some (index, expected, argument.value_type)
  else firstArgumentMismatch (index + 1) ps args

/-- A sequence of `emit_call` emissions, threading the builder state. -/
def emitCallsLoop : Builder → List (function.Instantiation × List Value) →
    Except ValidationError Builder
| b, [] => .ok b
| b, (callee, args) :: rest =>
  match b.emit_call callee args with
  | .error e => .error e
  | .ok (_, b2) => emitCallsLoop b2 rest

end block

namespace fixtures

/-- The identifier "Test". -/
def testId : identifier.Identifier := ⟨[84, 101, 115, 116]⟩

/-- The module named "Test" with version 1.0 and no definitions, built through
the public API. -/
def testModule : Sailar.module.Module := Sailar.module.Module.new testId [1, 0]

/-- A second module record with the same name, version, format version, length
size and definition list as `testModule`. -/
def testModuleAgain : Sailar.module.Module :=
  ⟨⟨0, 12⟩, .one, testId, [1, 0], []⟩

/-- The byte stream `write` produces for `testModule`: magic, version 0.12,
length-size tag 0, the 8-byte header, and the empty and placeholder sections. -/
def testModuleBytes : List Nat :=
  [83, 65, 73, 76, 65, 82, 0, 12, 0, 8, 4, 84, 101, 115, 116, 2, 1, 0,
   0, 0, 0, 0, 0, 0, 0, 0, 0, 0, 0, 0, 0, 0, 0]

/-- A module prefix (magic, version 0.12 — the minimum supported format
version —, length-size tag 0, and the header of `testModule`). -/
def minimumVersionBytes : List Nat :=
  [83, 65, 73, 76, 65, 82, 0, 12, 0, 8, 4, 84, 101, 115, 116, 2, 1, 0]

/-- The same stream with the minor version lowered by one (0.11, one minor
below the minimum supported format version). -/
def belowMinimumVersionBytes : List Nat :=
  [83, 65, 73, 76, 65, 82, 0, 11, 0, 8, 4, 84, 101, 115, 116, 2, 1, 0]

/-- The type S32. -/
def s32 : type_system.Any := type_system.FixedInt.any .s32

/-- An S32 constant operand. -/
def vS32 (n : Int) : block.Value := .constant (.integer (.s32 n))

/-- A U8 constant operand. -/
def vU8 (n : Nat) : block.Value := .constant (.integer (.u8 n))

/-- A builder for a block with one S32 result and no inputs. -/
def retBuilder : block.Builder := block.builder [s32] []

/-- The module whose name is the single-byte identifier "T", built through the
public API with an empty version vector. -/
def oneByteModule : Sailar.module.Module := Sailar.module.Module.new ⟨[84]⟩ []

/-- The byte stream `write` produces for `oneByteModule`. -/
def oneByteModuleBytes : List Nat :=
  [83, 65, 73, 76, 65, 82, 0, 12, 0, 3, 1, 84, 0,
   0, 0, 0, 0, 0, 0, 0, 0, 0, 0, 0, 0, 0, 0, 0]

/-- A callee instantiation with signature (S32 → S32). -/
def calleeOneParam : function.Instantiation := ⟨⟨[s32], [s32]⟩⟩

/-- The identifiers "f", "g", "lib" and "ep". -/
def fId : identifier.Identifier := ⟨[102]⟩

/-- The identifier "g". -/
def gId : identifier.Identifier := ⟨[103]⟩

/-- The identifier "lib". -/
def libId : identifier.Identifier := ⟨[108, 105, 98]⟩

/-- The identifier "ep". -/
def epId : identifier.Identifier := ⟨[101, 112]⟩

/-- A function signature with no results and no parameters. -/
def sigA : function.Signature := ⟨[], []⟩

/-- A function signature with one S32 result and no parameters. -/
def sigB : function.Signature := ⟨[s32], []⟩

/-- A foreign function definition (not exported). -/
def foreignDef : function.Definition := ⟨.foreign ⟨libId, epId⟩, .no⟩

/-- A module holding two foreign function definitions whose signatures are
distinct, so the writer interns two function signatures (indices 0 and 1). -/
def twoSigModule : Sailar.module.Module :=
  ⟨⟨0, 12⟩, .one, testId, [],
   [⟨⟨fId, sigA⟩, foreignDef⟩, ⟨⟨gId, sigB⟩, foreignDef⟩]⟩

/-- An emission order that enumerates the interned function signatures in
reverse: one of the enumeration orders `FxHashMap::into_keys` may produce. -/
def reversedSignatureOrder : writer.EmissionOrder :=
  ⟨id, id, List.reverse, id⟩

/-- The identifier "main". -/
def mainId : identifier.Identifier := ⟨[109, 97, 105, 110]⟩

/-- An exported function-definition record named "main". -/
def mainRecord : sailar_load.FunctionDefinitionRecord :=
  ⟨.asExport mainId, 0, .definition 0⟩

/-- The loaded definition the first "main" record produces. -/
def mainDefinition : sailar_load.Definition := sailar_load.Definition.new mainRecord

/-- The symbol of the first "main" definition. -/
def mainSymbol : sailar_load.Symbol := ⟨mainDefinition⟩

/-- A loaded code block for the lazy-cell fixtures. -/
def code0 : sailar_load.Code := ⟨[], 0, 0⟩

/-- A live module environment owning one code block. -/
def env0 : sailar_load.ModuleEnv := ⟨true, [code0], [], []⟩

/-- The "main" definition after its body cell resolved to `code0`. -/
def mainDefinitionResolved : sailar_load.Definition :=
  ⟨mainRecord, ⟨some (.ok (.defined code0))⟩, .unresolved⟩

/-- A callee instantiation with signature (→ S32), used by the call-only block. -/
def calleeNoParams : function.Instantiation := ⟨⟨[s32], []⟩⟩

/-- The fresh builder for a block with no results and no inputs. -/
def emptyBuilder : block.Builder := ⟨.one, [], [], [], []⟩

/-- The builder after one successful `emit_call` of `calleeNoParams`: one
temporary, no instruction. -/
def afterCallBuilder : block.Builder := ⟨.one, [], [], [⟨0, s32⟩], []⟩

/-- The block finalized from `afterCallBuilder` by `emit_ret []`. -/
def afterCallBlock : block.Block := ⟨.one, [], [], [s32], [.ret []]⟩

end fixtures

/-! Helper lemmas shared by the claim theorems. -/

/-- The value loop of `emit_ret` fails with `InvalidResultType` exactly at the
first mismatching position. -/
theorem retLoop_of_mismatch (ic : Nat) :
    ∀ (vs : List block.Value) (rs : List type_system.Any) (i j : Nat)
      (e a : type_system.Any),
    block.firstResultMismatch i vs rs = some (j, e, a) →
    block.retLoop ic i vs rs = .error (.invalidResultType ⟨j, e, a⟩) := by
  intro vs
  induction vs with
  | nil =>
    intro rs i j e a h
    simp [block.firstResultMismatch] at h
  | cons v vs ih =>
    intro rs i j e a h
    cases rs with
    | nil => simp [block.firstResultMismatch] at h
    | cons r rs =>
      by_cases hv : v.value_type = r
      · rw [block.firstResultMismatch] at h
        simp [hv] at h
        rw [block.retLoop]
        simp [hv]
        rw [ih rs (i + 1) j e a h]
      · rw [block.firstResultMismatch] at h
        simp [hv] at h
        rw [block.retLoop]
        simp [hv]
        obtain ⟨h1, h2, h3⟩ := h
        subst h1
        subst h2
        subst h3
        exact ⟨rfl, rfl, rfl⟩

/-- When no compared position mismatches, the value loop of `emit_ret` returns
the converted zipped prefix. -/
theorem retLoop_of_no_mismatch (ic : Nat) :
    ∀ (vs : List block.Value) (rs : List type_system.Any) (i : Nat),
    block.firstResultMismatch i vs rs = none →
    block.retLoop ic i vs rs =
      .ok ((vs.zip rs).map (fun p => p.1.to_value ic)) := by
  intro vs
  induction vs with
  | nil =>
    intro rs i _
    cases rs with
    | nil => rfl
    | cons r rs => rfl
  | cons v vs ih =>
    intro rs i h
    cases rs with
    | nil => rfl
    | cons r rs =>
      by_cases hv : v.value_type = r
      · rw [block.firstResultMismatch] at h
        simp [hv] at h
        rw [block.retLoop]
        simp [hv]
        rw [ih rs (i + 1) h]
      · rw [block.firstResultMismatch] at h
        simp [hv] at h

/-- The argument loop of `emit_call` fails with `ArgumentTypeMismatch` exactly
at the first mismatching position. -/
theorem callLoop_of_mismatch :
    ∀ (ps : List type_system.Any) (args : List block.Value) (i j : Nat)
      (e a : type_system.Any),
    block.firstArgumentMismatch i ps args = some (j, e, a) →
    block.callLoop i ps args = .error (.argumentTypeMismatch e a j) := by
  intro ps
  induction ps with
  | nil =>
    intro args i j e a h
    simp [block.firstArgumentMismatch] at h
  | cons p ps ih =>
    intro args i j e a h
    cases args with
    | nil => simp [block.firstArgumentMismatch] at h
    | cons v args =>
      by_cases hv : v.value_type = p
      · rw [block.firstArgumentMismatch] at h
        simp [hv] at h
        rw [block.callLoop]
        simp [hv]
        rw [ih args (i + 1) j e a h]
      · rw [block.firstArgumentMismatch] at h
        simp [hv] at h
        rw [block.callLoop]
        simp [hv]
        obtain ⟨h1, h2, h3⟩ := h
        subst h1
        subst h2
        subst h3
        exact ⟨rfl, rfl, rfl⟩

/-- When no compared position mismatches, the argument loop of `emit_call`
returns the zipped prefix of the arguments. -/
theorem callLoop_of_no_mismatch :
    ∀ (ps : List type_system.Any) (args : List block.Value) (i : Nat),
    block.firstArgumentMismatch i ps args = none →
    block.callLoop i ps args = .ok ((ps.zip args).map Prod.snd) := by
  intro ps
  induction ps with
  | nil =>
    intro args i _
    cases args with
    | nil => rfl
    | cons v args => rfl
  | cons p ps ih =>
    intro args i h
    cases args with
    | nil => rfl
    | cons v args =>
      by_cases hv : v.value_type = p
      · rw [block.firstArgumentMismatch] at h
        simp [hv] at h
        rw [block.callLoop]
        simp [hv]
        rw [ih args (i + 1) h]
      · rw [block.firstArgumentMismatch] at h
        simp [hv] at h

/-- The result-definition loop of `emit_call` produces one temporary per callee
result type, carrying exactly those types, and never touches the instruction
buffer. -/
theorem emitCallResults_spec :
    ∀ (ts : List type_system.Any) (b : block.Builder),
    (block.emitCallResults b ts).1.map block.Temporary.value_type = ts ∧
    (block.emitCallResults b ts).2.instructions = b.instructions := by
  intro ts
  induction ts with
  | nil => intro b; exact ⟨rfl, rfl⟩
  | cons t ts ih =>
    intro b
    rw [block.emitCallResults]
    refine ⟨?_, ?_⟩
    · simp [block.Builder.define_temporary, (ih _).1]
    · simp [(ih _).2, block.Builder.define_temporary]

/-- A successful `emit_call` leaves the instruction buffer unchanged (helper
form). -/
theorem emit_call_ok_shape (b : block.Builder) (callee : function.Instantiation)
    (args : List block.Value) (temps : List block.Temporary) (b2 : block.Builder)
    (h : b.emit_call callee args = .ok (temps, b2)) :
    b2.instructions = b.instructions := by
  rw [block.Builder.emit_call] at h
  rcases hc : block.callLoop 0 callee.signature.parameter_types args with e | kept
  · rw [hc] at h; exact absurd h (by simp)
  · rw [hc] at h
    by_cases hl : kept.length = callee.signature.parameter_types.length
    · simp [hl] at h
      have h2 : (block.emitCallResults b callee.signature.result_types).2 = b2 := by rw [h]
      rw [← h2]
      exact (emitCallResults_spec _ b).2
    · simp [hl] at h

/-- A chain of successful `emit_call` emissions leaves the instruction buffer
unchanged. -/
theorem emitCallsLoop_preserves_instructions :
    ∀ (calls : List (function.Instantiation × List block.Value))
      (b b2 : block.Builder),
    block.emitCallsLoop b calls = .ok b2 →
    b2.instructions = b.instructions := by
  intro calls
  induction calls with
  | nil =>
    intro b b2 h
    rw [block.emitCallsLoop] at h
    cases h
    rfl
  | cons c rest ih =>
    intro b b2 h
    rw [block.emitCallsLoop] at h
    rcases hc : b.emit_call c.1 c.2 with e | p
    · rw [hc] at h; exact absurd h (by simp)
    · rw [hc] at h
      rw [ih p.2 b2 h]
      exact emit_call_ok_shape b c.1 c.2 p.1 p.2 hc

/-- A successful `emit_ret` produces a block whose instruction list is the
builder's buffer with a final `Ret` appended. -/
theorem emit_ret_ok_shape (b : block.Builder) (vs : List block.Value)
    (blk : block.Block) (h : b.emit_ret vs = .ok blk) :
    ∃ buffer, blk.instructions = b.instructions ++ [instruction_set.Instruction.ret buffer] := by
  rw [block.Builder.emit_ret] at h
  rcases hr : block.retLoop b.input_registers.length 0 vs b.result_types with e | buffer
  · rw [hr] at h; exact absurd h (by simp)
  · rw [hr] at h
    by_cases hl : buffer.length = b.result_types.length
    · simp [hl] at h
      rw [block.Builder.finish] at h
      by_cases he : (b.instructions ++ [instruction_set.Instruction.ret buffer]).isEmpty
      · simp at he
      · simp [he] at h
        exact ⟨buffer, by rw [← h]⟩
    · simp [hl] at h

/-! Theorems for the claims. -/

/-- C1: the claim states `parse ∘ write = identity` on valid modules, and in
particular that a written module round-trips. On the code the round trip fails:
writing the API-built module "Test" v1.0 succeeds, but parsing the produced
bytes stops at offset 11 with an empty-identifier error, because
`read_identifier` fills the zero-length slice of `Vec::with_capacity(length)`
and validates an empty byte string instead of the module name; the claim's
single-byte identifier (module named "T") fails the same way. -/
theorem C1_parse_of_write_fails :
    (writer.write writer.EmissionOrder.insertion fixtures.testModule =
      some fixtures.testModuleBytes ∧
    parser.parse fixtures.testModuleBytes =
      .error ⟨11, .invalidIdentifier .empty⟩) ∧
    (writer.write writer.EmissionOrder.insertion fixtures.oneByteModule =
      some fixtures.oneByteModuleBytes ∧
    parser.parse fixtures.oneByteModuleBytes =
      .error ⟨11, .invalidIdentifier .empty⟩) := by
  refine ⟨⟨by decide, by decide⟩, ⟨by decide, by decide⟩⟩

/-- C2: the claim states that every interned section is emitted in insertion
order, the `get_or_insert` index of a payload equalling its emitted position.
On the code the indices written inline are insertion-order positions (first
conjunct: the two distinct signatures of `twoSigModule` intern as the ordered
key list), but the sections are emitted via `FxHashMap::into_keys`, whose
enumeration the map does not tie to insertion order: the reversed enumeration
is a lawful permutation of the interned keys (third conjunct), places the
payload with interned index 0 at emitted position 1 (fourth conjunct), and
changes the emitted bytes (second conjunct). -/
theorem C2_emission_order_not_tied_to_interned_index :
    (writer.writeDefinitionsLoop .one fixtures.twoSigModule.function_definitions
        writer.WriterLookups.empty).map
      (fun p => p.2.function_signature_lookup.keys) =
      some [fixtures.sigA, fixtures.sigB] ∧
    writer.write fixtures.reversedSignatureOrder fixtures.twoSigModule ≠
      writer.write writer.EmissionOrder.insertion fixtures.twoSigModule ∧
    fixtures.reversedSignatureOrder.Lawful ∧
    writer.findIndex ([fixtures.sigA, fixtures.sigB].reverse) fixtures.sigA = some 1 := by
  refine ⟨by decide, by decide, ⟨?_, ?_, ?_, ?_⟩, by decide⟩
  · intro l; exact List.Perm.refl l
  · intro l; exact List.Perm.refl l
  · intro l; exact List.reverse_perm l
  · intro l; exact List.Perm.refl l

/-- C3 counterexample: the claim states that `emit_ret` succeeds only if the
number of supplied values equals the block result count. On the code, a builder
for one S32 result accepts two supplied S32 values and finalizes a block: the
zip with the result types silently drops the surplus value. -/
theorem C3_counterexample_surplus_value_accepted :
    (fixtures.retBuilder.emit_ret [fixtures.vS32 0, fixtures.vS32 1]).isOk = true ∧
    fixtures.retBuilder.result_types.length = 1 ∧
    [fixtures.vS32 0, fixtures.vS32 1].length = 2 := by
  refine ⟨by decide, by decide, by decide⟩

/-- C4 counterexample: the claim states that `emit_call` succeeds only if the
number of arguments equals the callee parameter count. On the code, a callee
with one S32 parameter accepts two arguments: the zip with the parameter types
silently drops the surplus argument. -/
theorem C4_counterexample_surplus_argument_accepted :
    (fixtures.retBuilder.emit_call fixtures.calleeOneParam
      [fixtures.vS32 0, fixtures.vU8 9]).isOk = true ∧
    fixtures.calleeOneParam.signature.parameter_types.length = 1 ∧
    [fixtures.vS32 0, fixtures.vU8 9].length = 2 := by
  refine ⟨by decide, by decide, by decide⟩

/-- C5: the claim states that loading a module with two exported definitions
named "main" yields `DuplicateSymbolError("main")` and never panics. On the
code, `Module::from_source` calls
`try_insert(..).expect("TODO: handle duplicate symbol error")`, so the
duplicate makes it panic with that message (first conjunct). The underlying
`Lookup::try_insert` does return the duplicate error carrying the existing
"main" symbol and leaves the first entry intact (third conjunct), and the first
definition alone loads fine (second conjunct). -/
theorem C5_from_source_duplicate_symbol_panics :
    sailar_load.from_source
        [.functionDefinition fixtures.mainRecord,
         .functionDefinition fixtures.mainRecord] =
      .panicked "TODO: handle duplicate symbol error" ∧
    sailar_load.from_source [.functionDefinition fixtures.mainRecord] =
      .ok ⟨[], none, ⟨[fixtures.mainSymbol]⟩, [fixtures.mainDefinition]⟩ ∧
    sailar_load.Lookup.try_insert ⟨[fixtures.mainSymbol]⟩ fixtures.mainSymbol =
      .error ⟨fixtures.mainSymbol⟩ ∧
    fixtures.mainSymbol.name = fixtures.mainId := by
  refine ⟨by decide, by decide, by decide, by decide⟩

/-- C8: the claim states that a stream at the minimum supported format version
(0, 12) passes the version check while one minor below (0, 11) is rejected. On
the code there is no version check at all: the parser stores the version bytes
without comparing them to `FormatVersion::MINIMUM_SUPPORTED` (its `ErrorKind`
has no version case), so the 0.11 stream parses exactly like the 0.12 stream —
both proceed past the version bytes and fail only at the downstream
empty-identifier bug, with identical errors. -/
theorem C8_parser_ignores_format_version :
    parser.parse fixtures.belowMinimumVersionBytes =
      parser.parse fixtures.minimumVersionBytes ∧
    parser.parse fixtures.minimumVersionBytes =
      .error ⟨11, .invalidIdentifier .empty⟩ := by
  refine ⟨by decide, by decide⟩

/-- C3 (amended): `emit_ret` succeeds and finalizes the block iff at least
result-count values are supplied and each of the first result-count values has
the result type at its position — surplus values are silently dropped by the
zip rather than rejected; with fewer values it fails with
`ResultCountMismatch` (expected the result count, actual the supplied count),
and a type mismatch within the compared prefix fails with `InvalidResultType`
at the first mismatching position; on failure no block is produced. -/
theorem C3_amended_emit_ret_characterization (b : block.Builder) (vs : List block.Value) :
    match block.firstResultMismatch 0 vs b.result_types with
    | some (j, e, a) =>
      b.emit_ret vs = .error (.invalidResultType ⟨j, e, a⟩)
    | none =>
      if vs.length < b.result_types.length then
        b.emit_ret vs = .error (.resultCountMismatch b.result_types.length vs.length)
      else
        ∃ blk, b.emit_ret vs = .ok blk ∧
          blk.instructions = b.instructions ++
            [instruction_set.Instruction.ret
              ((vs.zip b.result_types).map
                (fun p => p.1.to_value b.input_registers.length))] := by
  rcases hm : block.firstResultMismatch 0 vs b.result_types with _ | ⟨j, e, a⟩
  · have hr := retLoop_of_no_mismatch b.input_registers.length vs b.result_types 0 hm
    have hlen : ((vs.zip b.result_types).map
        (fun p => p.1.to_value b.input_registers.length)).length =
        min vs.length b.result_types.length := by
      simp
    by_cases hlt : vs.length < b.result_types.length
    · have hmin : min vs.length b.result_types.length = vs.length :=
        Nat.min_eq_left (Nat.le_of_lt hlt)
      simp only [hlt, if_true]
      rw [block.Builder.emit_ret, hr]
      simp only [hlen, hmin]
      simp [Nat.ne_of_lt hlt]
    · have hge : b.result_types.length ≤ vs.length := Nat.le_of_not_lt hlt
      have hmin : min vs.length b.result_types.length = b.result_types.length :=
        Nat.min_eq_right hge
      simp only [hlt, if_false]
      rw [block.Builder.emit_ret, hr]
      simp only [hlen, hmin]
      simp [block.Builder.finish]
  · have hr := retLoop_of_mismatch b.input_registers.length vs b.result_types 0 j e a hm
    simp only
    rw [block.Builder.emit_ret, hr]

/-- C4 (amended): `emit_call` succeeds iff at least parameter-count arguments
are supplied and each of the first parameter-count arguments has the parameter
type at its position — surplus arguments are silently dropped by the zip rather
than rejected; with fewer arguments it fails with `ArgumentCountMismatch`
(expected the parameter count, actual the supplied count), and a type mismatch
within the compared prefix fails with `ArgumentTypeMismatch` at the first
mismatching position; on success exactly one result temporary is defined per
callee result type, carrying those types. -/
theorem C4_amended_emit_call_characterization (b : block.Builder)
    (callee : function.Instantiation) (args : List block.Value) :
    match block.firstArgumentMismatch 0 callee.signature.parameter_types args with
    | some (j, e, a) =>
      b.emit_call callee args = .error (.argumentTypeMismatch e a j)
    | none =>
      if args.length < callee.signature.parameter_types.length then
        b.emit_call callee args =
          .error (.argumentCountMismatch callee.signature.parameter_types.length args.length)
      else
        ∃ temps b2, b.emit_call callee args = .ok (temps, b2) ∧
          temps.map block.Temporary.value_type = callee.signature.result_types := by
  rcases hm : block.firstArgumentMismatch 0 callee.signature.parameter_types args
    with _ | ⟨j, e, a⟩
  · have hc := callLoop_of_no_mismatch callee.signature.parameter_types args 0 hm
    have hlen : ((callee.signature.parameter_types.zip args).map Prod.snd).length =
        min callee.signature.parameter_types.length args.length := by
      simp
    by_cases hlt : args.length < callee.signature.parameter_types.length
    · have hmin : min callee.signature.parameter_types.length args.length = args.length :=
        Nat.min_eq_right (Nat.le_of_lt hlt)
      simp only [hlt, if_true]
      rw [block.Builder.emit_call, hc]
      simp only [hlen, hmin]
      simp only [ne_eq, ite_not]
      simp [Nat.ne_of_lt hlt]
    · have hge : callee.signature.parameter_types.length ≤ args.length :=
        Nat.le_of_not_lt hlt
      have hmin : min callee.signature.parameter_types.length args.length =
          callee.signature.parameter_types.length := Nat.min_eq_left hge
      simp only [hlt, if_false]
      rw [block.Builder.emit_call, hc]
      simp only [hlen, hmin]
      rw [if_neg (by simp)]
      exact ⟨(block.emitCallResults b callee.signature.result_types).1,
             (block.emitCallResults b callee.signature.result_types).2,
             by rw [Prod.mk.eta],
             (emitCallResults_spec callee.signature.result_types b).1⟩
  · have hc := callLoop_of_mismatch callee.signature.parameter_types args 0 j e a hm
    simp only
    rw [block.Builder.emit_call, hc]

/-- C6: the shared arithmetic emission of `emit_add`, `emit_sub`, `emit_mul`
and `emit_add_flagged` rejects a non-integer first operand with
`ExpectedInteger` reporting the first operand's type, rejects a second operand
of a different type with `Expected(x_type)` reporting the second operand's
type, and on success defines a result temporary of the first operand's type —
the flagged variant defining exactly one further temporary of type U8. -/
theorem C6_integer_arithmetic_type_rules (b : block.Builder) (x y : block.Value) :
    if x.value_type.isInt = false then
      b.emit_add x y = .error (.expectedType ⟨x.value_type, .expectedInteger⟩) ∧
      b.emit_sub x y = .error (.expectedType ⟨x.value_type, .expectedInteger⟩) ∧
      b.emit_mul x y = .error (.expectedType ⟨x.value_type, .expectedInteger⟩) ∧
      b.emit_add_flagged x y = .error (.expectedType ⟨x.value_type, .expectedInteger⟩)
    else if x.value_type ≠ y.value_type then
      b.emit_add x y = .error (.expectedType ⟨y.value_type, .expected x.value_type⟩) ∧
      b.emit_sub x y = .error (.expectedType ⟨y.value_type, .expected x.value_type⟩) ∧
      b.emit_mul x y = .error (.expectedType ⟨y.value_type, .expected x.value_type⟩) ∧
      b.emit_add_flagged x y = .error (.expectedType ⟨y.value_type, .expected x.value_type⟩)
    else
      (∃ t b2, b.emit_add x y = .ok (t, b2) ∧ t.value_type = x.value_type ∧
        b2.temporary_registers = b.temporary_registers ++ [t]) ∧
      (∃ t b2, b.emit_sub x y = .ok (t, b2) ∧ t.value_type = x.value_type ∧
        b2.temporary_registers = b.temporary_registers ++ [t]) ∧
      (∃ t b2, b.emit_mul x y = .ok (t, b2) ∧ t.value_type = x.value_type ∧
        b2.temporary_registers = b.temporary_registers ++ [t]) ∧
      (∃ fo b2, b.emit_add_flagged x y = .ok (fo, b2) ∧
        fo.result.value_type = x.value_type ∧
        fo.flag.value_type = type_system.FixedInt.any .u8 ∧
        b2.temporary_registers = b.temporary_registers ++ [fo.result, fo.flag]) := by
  by_cases hint : x.value_type.isInt = false
  · rw [if_pos hint]
    refine ⟨?_, ?_, ?_, ?_⟩ <;>
      simp [block.Builder.emit_add, block.Builder.emit_sub, block.Builder.emit_mul,
        block.Builder.emit_add_flagged, block.Builder.integer_arithmetic_flagged,
        block.Builder.integer_arithmetic_instruction, hint]
  · rw [if_neg hint]
    by_cases hxy : x.value_type = y.value_type
    · rw [if_neg (fun h => h hxy)]
      have harith : ∀ ctor : instruction_set.IntegerArithmetic → instruction_set.Instruction,
          ∀ beh : instruction_set.OverflowBehavior,
          b.integer_arithmetic_instruction beh x y ctor =
            .ok (⟨b.temporary_registers.length, x.value_type⟩,
              ⟨b.integer_size, b.result_types, b.input_registers,
               b.temporary_registers ++ [⟨b.temporary_registers.length, x.value_type⟩],
               b.instructions ++ [ctor ⟨beh, b.convert_value x, b.convert_value y⟩]⟩) := by
        intro ctor beh
        simp only [block.Builder.integer_arithmetic_instruction]
        rw [if_neg hint, if_neg (fun h => h hxy)]
        rfl
      refine ⟨⟨_, _, harith .addI .ignore, rfl, rfl⟩,
              ⟨_, _, harith .subI .ignore, rfl, rfl⟩,
              ⟨_, _, harith .mulI .ignore, rfl, rfl⟩, ?_⟩
      refine ⟨⟨⟨b.temporary_registers.length, x.value_type⟩,
               ⟨b.temporary_registers.length + 1, type_system.FixedInt.any .u8⟩⟩,
              ⟨b.integer_size, b.result_types, b.input_registers,
               b.temporary_registers ++
                 [⟨b.temporary_registers.length, x.value_type⟩,
                  ⟨b.temporary_registers.length + 1, type_system.FixedInt.any .u8⟩],
               b.instructions ++
                 [.addI ⟨.flag, b.convert_value x, b.convert_value y⟩]⟩,
              ?_, rfl, rfl, rfl⟩
      rw [block.Builder.emit_add_flagged, block.Builder.integer_arithmetic_flagged,
        harith .addI .flag]
      simp [block.Builder.define_overflow_flag, block.Builder.define_temporary]
    · rw [if_pos hxy]
      refine ⟨?_, ?_, ?_, ?_⟩ <;>
        simp [block.Builder.emit_add, block.Builder.emit_sub, block.Builder.emit_mul,
          block.Builder.emit_add_flagged, block.Builder.integer_arithmetic_flagged,
          block.Builder.integer_arithmetic_instruction, hint, hxy]

/-- C7: the writer is deterministic — for a fixed enumeration order, two
modules with the same format version, length size, name, version vector and
function definitions (added in the same order) produce bit-identical output. -/
theorem C7_write_deterministic (o : writer.EmissionOrder)
    (m1 m2 : Sailar.module.Module)
    (h1 : m1.format_version = m2.format_version)
    (h2 : m1.length_size = m2.length_size)
    (h3 : m1.name = m2.name)
    (h4 : m1.version = m2.version)
    (h5 : m1.function_definitions = m2.function_definitions) :
    writer.write o m1 = writer.write o m2 := by
  cases m1 with
  | mk fv1 ls1 n1 v1 fd1 =>
    cases m2 with
    | mk fv2 ls2 n2 v2 fd2 =>
      simp only at h1 h2 h3 h4 h5
      subst h1
      subst h2
      subst h3
      subst h4
      subst h5
      rfl

/-- Witness for C7: the API-built module "Test" v1.0 and a field-for-field
equal module record write to identical bytes. -/
theorem C7_write_deterministic_witness :
    writer.write writer.EmissionOrder.insertion fixtures.testModule =
      writer.write writer.EmissionOrder.insertion fixtures.testModuleAgain :=
  C7_write_deterministic writer.EmissionOrder.insertion fixtures.testModule
    fixtures.testModuleAgain (by decide) (by decide) (by decide) (by decide) (by decide)

/-- C9: every lazy cross-reference cell of a loaded function — the
instantiation's template cell, the definition's signature cell and the
definition's body cell — resolves at most once: after the first access the cell
is memoized, and any further access (even against a different module state)
returns the identical result and leaves the cell unchanged without invoking the
resolver again. -/
theorem C9_lazy_cells_memoized :
    (∀ (inst : sailar_load.Instantiation) (env1 env2 : sailar_load.ModuleEnv),
      (inst.template env1).2.1.template env2 =
        ((inst.template env1).1, (inst.template env1).2.1, false)) ∧
    (∀ (d : sailar_load.Definition) (env1 env2 : sailar_load.ModuleEnv),
      (d.signature env1).2.1.signature env2 =
        ((d.signature env1).1, (d.signature env1).2.1, false)) ∧
    (∀ (d : sailar_load.Definition) (env1 env2 : sailar_load.ModuleEnv)
       (r : Except sailar_load.LoaderError sailar_load.Body)
       (d2 : sailar_load.Definition) (invoked : Bool),
      d.body env1 = some (r, d2, invoked) →
      d2.body env2 = some (r, d2, false)) := by
  refine ⟨?_, ?_, ?_⟩
  · intro inst env1 env2
    rcases hc : inst.template_cell.state with _ | r <;>
      simp [sailar_load.Instantiation.template, sailar_load.LazyCell.get_or_create, hc]
  · intro d env1 env2
    rcases hc : d.signature_cell.state with _ | r <;>
      simp [sailar_load.Definition.signature, sailar_load.LazyCell.get_or_create, hc]
  · intro d env1 env2 r d2 invoked h
    rcases hc : d.body_cell.state with _ | r0
    · rw [sailar_load.Definition.body, hc] at h
      rcases hres : d.body_resolver env1 with _ | r1
      · rw [hres] at h
        exact absurd h (by simp)
      · rw [hres] at h
        simp at h
        obtain ⟨h1, h2, _⟩ := h
        subst h1
        subst h2
        rw [sailar_load.Definition.body]
    · rw [sailar_load.Definition.body, hc] at h
      simp at h
      obtain ⟨h1, h2, _⟩ := h
      subst h1
      subst h2
      rw [sailar_load.Definition.body, hc]

/-- Witness for C9: after the body of the "main" definition resolved once (to
the code block at index 0 of the live environment), a second access returns the
same resolved handle, leaves the definition unchanged and does not invoke the
resolver. -/
theorem C9_lazy_cells_memoized_witness :
    fixtures.mainDefinitionResolved.body fixtures.env0 =
      some (.ok (.defined fixtures.code0), fixtures.mainDefinitionResolved, false) :=
  C9_lazy_cells_memoized.2.2 fixtures.mainDefinition fixtures.env0 fixtures.env0
    (.ok (.defined fixtures.code0)) fixtures.mainDefinitionResolved true (by decide)

/-- C10: a successful `emit_call` appends no instruction — it only defines
result temporaries — so a block built from a fresh builder by any chain of
successful `emit_call` emissions and finalized by `emit_ret` contains no Call
instruction. -/
theorem C10_emit_call_appends_no_instruction :
    (∀ (b : block.Builder) (callee : function.Instantiation) (args : List block.Value)
       (temps : List block.Temporary) (b2 : block.Builder),
      b.emit_call callee args = .ok (temps, b2) → b2.instructions = b.instructions) ∧
    (∀ (rts its : List type_system.Any)
       (calls : List (function.Instantiation × List block.Value))
       (b : block.Builder) (vs : List block.Value) (blk : block.Block),
      block.emitCallsLoop (block.builder rts its) calls = .ok b →
      b.emit_ret vs = .ok blk →
      ∀ i ∈ blk.instructions, i.isCall = false) := by
  constructor
  · exact emit_call_ok_shape
  · intro rts its calls b vs blk hcalls hret i hi
    have hb : b.instructions = [] :=
      emitCallsLoop_preserves_instructions calls (block.builder rts its) b hcalls
    obtain ⟨buffer, hblk⟩ := emit_ret_ok_shape b vs blk hret
    rw [hblk, hb] at hi
    simp at hi
    rw [hi]
    rfl

/-- Witness for C10: one successful call of the (→ S32) callee leaves the fresh
builder's empty instruction buffer empty, and the block finalized afterwards by
`emit_ret []` contains no Call instruction. -/
theorem C10_emit_call_appends_no_instruction_witness :
    fixtures.afterCallBuilder.instructions = fixtures.emptyBuilder.instructions ∧
    (∀ i ∈ fixtures.afterCallBlock.instructions, i.isCall = false) :=
  ⟨C10_emit_call_appends_no_instruction.1 fixtures.emptyBuilder fixtures.calleeNoParams
     [] [⟨0, fixtures.s32⟩] fixtures.afterCallBuilder (by decide),
   C10_emit_call_appends_no_instruction.2 [] [] [(fixtures.calleeNoParams, [])]
     fixtures.afterCallBuilder [] fixtures.afterCallBlock (by decide) (by decide)⟩

end Sailar
